import Mathlib

/-!
Verification of the AI-video backend (Express + MongoDB + D-ID).
This file shallowly embeds the core logic of the repository: the D-ID
generation poll loop of `POST /generate-and-upload` (`src/server.js`
lines 79-146, bounded; legacy unbounded variants in `src/unnamed/part_000`
lines 44-94 and `src/unnamed/part_001` lines 49-86; the retry-bounded
variant of `src/unnamed/part_003` lines 50-91); the multi-strategy record
updater `PUT /api/updateSubtopicVideo` (`src/server.js` lines 275-432,
direct-MongoDB portion, and the `src/unnamed/part_000` lines 385-504
ATTEMPT 1-3 variant); and the record insertion `POST /api/addSubtopic`
(`src/unnamed/part_000` lines 507-573).
Time is modelled by the cumulative sleep budget (the code sleeps a fixed
interval after every non-terminal poll and compares `Date.now() - startTime`
with the budget; network latency is taken as negligible).  MongoDB documents
are modelled with the fields the endpoints read or write; `ObjectId` values
are 24-hex-character strings, and BSON values are tagged so that a string id
and a native ObjectId with the same characters do not compare equal, exactly
as in MongoDB.
-/

/-! ## Definitions -/

/-- One status-poll response of the external provider
(`poll.data.status` and `poll.data.result_url` in the source). -/
structure PollResp where
  status : String
  result_url : String
deriving DecidableEq

/-- Terminal outcome of the bounded poll loop in `src/server.js`:
`success url` is the `status === "done"` exit carrying `result_url`,
`providerError` is the `throw new Error("D-ID video generation failed")`
branch, and `timeout` is the `throw new Error("Video generation timeout")`
after the loop guard fails. -/
inductive JobOutcome where
  | success : String → JobOutcome
  | providerError : JobOutcome
  | timeout : JobOutcome
deriving DecidableEq

/-- The bounded poll loop of `src/server.js` lines 112-134.  `provider k` is
the response of the `k`-th status poll, `k` counts polls already made and
`elapsed` the milliseconds slept so far.  The loop guard
`status !== "done" && (Date.now() - startTime) < maxWaitTime` is checked
before each poll; at every guard check the status is non-terminal (the
`done` and `failed` branches exit the loop), so the guard is the time check.
`fuel` bounds the recursion; `none` means the fuel ran out, which never
happens for `fuel > maxWait` when `0 < pollInterval`
(see `pollLoopFuel_total`). -/
def pollLoopFuel (provider : Nat → PollResp) (pollInterval maxWait : Nat) :
    Nat → Nat → Nat → Option (JobOutcome × Nat)
  | fuel, k, elapsed =>
    if maxWait ≤ elapsed then
      some (JobOutcome.timeout, k)
    else
      match fuel with
      | 0 => none
      | fuel + 1 =>
        let p := provider k
        if p.status = "done" then
          some (JobOutcome.success p.result_url, k + 1)
        else if p.status = "failed" then
          some (JobOutcome.providerError, k + 1)
        else
          pollLoopFuel provider pollInterval maxWait fuel (k + 1) (elapsed + pollInterval)

/-- `awaitCompletion` runs the bounded poll loop from zero polls and zero
elapsed time.  Fuel `maxWait + 1` is sufficient whenever `0 < pollInterval`
because every non-terminal poll adds `pollInterval` to `elapsed`.  The code
fixes `pollInterval = 3000` and `maxWait = 600000`
(`src/server.js` lines 110, 128). -/
def awaitCompletion (provider : Nat → PollResp) (pollInterval maxWait : Nat) :
    Option (JobOutcome × Nat) :=
  pollLoopFuel provider pollInterval maxWait (maxWait + 1) 0 0

/-- The poll interval hard-coded in `src/server.js` line 128 (ms). -/
def pollIntervalMs : Nat := 3000

/-- The poll budget hard-coded in `src/server.js` line 110 (ms). -/
def maxWaitTimeMs : Nat := 10 * 60 * 1000

/-- The unbounded poll loop of the legacy variants
(`src/unnamed/part_000` lines 72-83 and `src/unnamed/part_001` lines 67-75):
`while (status !== "done") { poll; if done take result_url else sleep }`.
There is no time budget and no `failed` branch.  `none` means the loop is
still running after `fuel` polls. -/
def pollLoopUnbounded (provider : Nat → PollResp) : Nat → Nat → Option (String × Nat)
  | 0, _ => none
  | fuel + 1, k =>
    let p := provider k
    if p.status = "done" then some (p.result_url, k + 1)
    else pollLoopUnbounded provider fuel (k + 1)

/-- The legacy unbounded poll loop never reaches a result, whatever the
number of steps it is given: it is still polling after any number of polls. -/
def unboundedRunsForever (provider : Nat → PollResp) : Prop :=
  ∀ fuel k, pollLoopUnbounded provider fuel k = none

/-- A provider whose every status poll answers `inProgress`. -/
def constInProgress : Nat → PollResp := fun _ => ⟨"inProgress", ""⟩

/-- A provider whose every status poll answers `failed`. -/
def constFailed : Nat → PollResp := fun _ => ⟨"failed", ""⟩

/-- JavaScript truthiness of an optional request-body string:
`undefined` and the empty string are falsy. -/
def truthy : Option String → Bool
  | none => false
  | some s => !(s == "")

/-- Length of a string after JavaScript's `trim()`: leading and trailing
whitespace stripped (the final reverse is dropped since it leaves the
length unchanged). -/
def trimmedLength (s : String) : Nat :=
  ((s.toList.dropWhile Char.isWhitespace).reverse.dropWhile Char.isWhitespace).length

/-- The validation of `src/server.js` line 83:
`!subtopic || !description || description.trim().length < 3` rejects. -/
def validGenInput (subtopic description : Option String) : Bool :=
  truthy subtopic && truthy description
    && decide (3 ≤ trimmedLength (description.getD ""))

/-- Result of the `POST /generate-and-upload` handler: the 400 validation
response, the success JSON carrying `firebase_video_url`, or the 500 error
response produced by the handler's catch block. -/
inductive GenResult where
  | badRequest : GenResult
  | success : String → GenResult
  | serverError : String → GenResult
deriving DecidableEq

/-- The `POST /generate-and-upload` handler of `src/server.js` lines 79-146.
Returns the response together with the number of job-creation calls issued
to the provider (the single `axios.post("https://api.d-id.com/talks", ...)`;
status polls are not job-creation calls).  The `none` branch of the fueled
loop is unreachable for the code's `pollInterval = 3000`
(see `pollLoopFuel_total`). -/
def generateAndUpload (subtopic description : Option String)
    (provider : Nat → PollResp) : GenResult × Nat :=
  if ¬ validGenInput subtopic description then (GenResult.badRequest, 0)
  else
    match awaitCompletion provider pollIntervalMs maxWaitTimeMs with
    | some (JobOutcome.success url, _) => (GenResult.success url, 1)
    | some (JobOutcome.providerError, _) =>
        (GenResult.serverError "D-ID video generation failed", 1)
    | some (JobOutcome.timeout, _) =>
        (GenResult.serverError "Video generation timeout", 1)
    | none => (GenResult.serverError "Video generation timeout", 1)

/-- The retry-bounded poll loop of `src/unnamed/part_003` lines 68-80:
`while (status !== "done" && retries < 30)`; every non-`done` poll consumes
one retry; there is no `failed` branch.  `none` is the
`"Video generation timed out"` exit. -/
def pollLoopRetriesP3 (provider : Nat → PollResp) : Nat → Nat → Option (String × Nat)
  | 0, _ => none
  | budget + 1, k =>
    let p := provider k
    if p.status = "done" then some (p.result_url, k + 1)
    else pollLoopRetriesP3 provider budget (k + 1)

/-- The `POST /generate-and-upload` handler of `src/unnamed/part_003`
lines 50-91.  It destructures `subtopicId, subtopicName, description` and
performs NO validation: the job-creation call is issued unconditionally
(the unvalidated `description` is forwarded as the script input), then the
retry-bounded loop polls.  The pair's second component again counts
job-creation calls. -/
def generateAndUploadP3 (_subtopicName _description : Option String)
    (provider : Nat → PollResp) : GenResult × Nat :=
  match pollLoopRetriesP3 provider 30 0 with
  | some (url, _) => (GenResult.success url, 1)
  | none => (GenResult.serverError "Video generation timed out", 1)

/-- A BSON identifier value: a plain string or a native ObjectId.  MongoDB
equality is type-sensitive, so `str s` never equals `oid s`. -/
inductive BVal where
  | str : String → BVal
  | oid : String → BVal
deriving DecidableEq

/-- The Node driver's `new ObjectId(s)` accepts a 24-character hex string
and throws otherwise (`src/server.js` catches the throw and skips the
strategy). -/
def isValidOid (s : String) : Bool :=
  s.length == 24 && s.toList.all fun c =>
    c.isDigit || ('a' ≤ c && c ≤ 'f') || ('A' ≤ c && c ≤ 'F')

/-- A nested element of a document's `units` array.  `nid` is the element's
`id` field (the Spring-Boot shape queried by `src/server.js` via
`"units.id"`), `nuid` its `_id` field (the shape queried by
`src/unnamed/part_000` via `"units._id"`); either may be absent.  The
`imageUrls`/`audioFileId` payload arrays are carried by the code but never
read by any endpoint modelled here and are omitted. -/
structure NUnit where
  nid : Option BVal
  nuid : Option BVal
  unitName : Option String
  explanation : Option String
  aiVideoUrl : Option String
  createdAt : Option Nat
  updatedAt : Option Nat
deriving DecidableEq

/-- A top-level document of a collection, with the fields the modelled
endpoints read or write; a document without a `units` field behaves like
one with an empty array for the `"units.*"` queries. -/
structure MDoc where
  mid : BVal
  unitName : Option String
  explanation : Option String
  parentId : Option String
  subtopicId : Option String
  aiVideoUrl : Option String
  createdAt : Option Nat
  updatedAt : Option Nat
  units : List NUnit
deriving DecidableEq

/-- `updateOne`'s positional `$`: rewrite the first array element
satisfying the query predicate, leave the rest untouched. -/
def updateFirstUnit (p : NUnit → Bool) (f : NUnit → NUnit) : List NUnit → List NUnit
  | [] => []
  | u :: us => if p u then f u :: us else u :: updateFirstUnit p f us

/-- MongoDB `updateOne(filter, {$set ...})` on a collection: apply `f` to
the first document satisfying `p`.  Returns the new collection contents,
the `matchedCount` (0 or 1) and the `modifiedCount` (1 exactly when the
matched document actually changed). -/
def updateOneDocs (p : MDoc → Bool) (f : MDoc → MDoc) : List MDoc → List MDoc × Nat × Nat
  | [] => ([], 0, 0)
  | d :: ds =>
    if p d then (f d :: ds, 1, if f d = d then 0 else 1)
    else
      let r := updateOneDocs p f ds
      (d :: r.1, r.2.1, r.2.2)

/-- Query `{"units.id": sid}` on one array element. -/
def unitIdStrPred (sid : String) (u : NUnit) : Bool :=
  u.nid == some (BVal.str sid)

/-- Query `{"units._id": sid}` (string form) on one array element. -/
def unitUidStrPred (sid : String) (u : NUnit) : Bool :=
  u.nuid == some (BVal.str sid)

/-- Query `{"units._id": new ObjectId(sid)}` on one array element. -/
def unitUidOidPred (sid : String) (u : NUnit) : Bool :=
  u.nuid == some (BVal.oid sid)

/-- Document filter `{"units.id": sid}`. -/
def nestedIdPred (sid : String) (d : MDoc) : Bool :=
  d.units.any (unitIdStrPred sid)

/-- Document filter `{"units._id": sid}` (string form). -/
def nestedUidStrPred (sid : String) (d : MDoc) : Bool :=
  d.units.any (unitUidStrPred sid)

/-- Document filter `{"units._id": new ObjectId(sid)}`. -/
def nestedUidOidPred (sid : String) (d : MDoc) : Bool :=
  d.units.any (unitUidOidPred sid)

/-- Document filter `{_id: new ObjectId(sid)}`. -/
def mainDocPred (sid : String) (d : MDoc) : Bool :=
  d.mid == BVal.oid sid

/-- `$set {"units.$.aiVideoUrl": url, "units.$.updatedAt": now}` on one
array element (`src/server.js` lines 321-329). -/
def setUnitVideo (url : String) (now : Nat) (u : NUnit) : NUnit :=
  { u with aiVideoUrl := some url, updatedAt := some now }

/-- `$set {"units.$.aiVideoUrl": url}` on one array element
(used by `src/unnamed/part_000` ATTEMPT 2, whose `updatedAt` is set on the
document, not the element). -/
def setUnitVideoOnly (url : String) (u : NUnit) : NUnit :=
  { u with aiVideoUrl := some url }

/-- Document update of the `src/server.js` nested-unit strategy. -/
def nestedIdSet (sid url : String) (now : Nat) (d : MDoc) : MDoc :=
  { d with units := updateFirstUnit (unitIdStrPred sid) (setUnitVideo url now) d.units }

/-- Document update of `src/unnamed/part_000` ATTEMPT 2
(`$set {"units.$.aiVideoUrl": url, updatedAt: now}`: element URL plus
document-level timestamp). -/
def nestedUidStrSet (sid url : String) (now : Nat) (d : MDoc) : MDoc :=
  { d with
    updatedAt := some now
    units := updateFirstUnit (unitUidStrPred sid) (setUnitVideoOnly url) d.units }

/-- Document update of `src/unnamed/part_000` ATTEMPT 3
(`$set {"units.$.aiVideoUrl": url, "units.$.updatedAt": now}`). -/
def nestedUidOidSet (sid url : String) (now : Nat) (d : MDoc) : MDoc :=
  { d with units := updateFirstUnit (unitUidOidPred sid) (setUnitVideo url now) d.units }

/-- Document update of the main-document strategy
(`$set {aiVideoUrl: url, updatedAt: now}`). -/
def mainDocSet (url : String) (now : Nat) (d : MDoc) : MDoc :=
  { d with aiVideoUrl := some url, updatedAt := some now }

/-- One `updateOne` attempt of the endpoint, recorded for the write audit:
which collection, which strategy (`"nested_unit"` or `"main_document"`),
and the `matchedCount` it reported.  An attempt writes exactly when
`0 < matched`. -/
structure Attempt where
  collection : String
  strategy : String
  matched : Nat
deriving DecidableEq

/-- Response of `PUT /api/updateSubtopicVideo`: `ok = true` is the
`status: "ok"` JSON (`updated` is the `modifiedCount`), `ok = false` is the
404 not-found response. -/
structure UpdResponse where
  ok : Bool
  updated : Nat
  location : Option String
  collection : Option String
deriving DecidableEq

/-- The 404 response of `src/server.js` lines 422-426. -/
def notFoundResp : UpdResponse :=
  { ok := false, updated := 0, location := none, collection := none }

/-- The two ordered strategies `src/server.js` runs against one collection
(lines 321-364 for the `subjectName` collection, 374-418 inside the
all-collections loop): first the nested `"units.id"` update, then — only
when the identifier parses as an ObjectId, the `try/catch` swallowing the
parse failure otherwise — the main-document `_id` update.  Returns the
response and new contents on a match, `none` otherwise, plus the list of
attempts made. -/
def tryCollectionTr (name : String) (docs : List MDoc) (sid url : String) (now : Nat) :
    Option (UpdResponse × List MDoc) × List Attempt :=
  let r1 := updateOneDocs (nestedIdPred sid) (nestedIdSet sid url now) docs
  let a1 : Attempt := ⟨name, "nested_unit", r1.2.1⟩
  if 0 < r1.2.1 then
    (some ({ ok := true, updated := r1.2.2, location := some "nested_unit",
             collection := some name }, r1.1), [a1])
  else if isValidOid sid then
    let r2 := updateOneDocs (mainDocPred sid) (mainDocSet url now) docs
    let a2 : Attempt := ⟨name, "main_document", r2.2.1⟩
    if 0 < r2.2.1 then
      (some ({ ok := true, updated := r2.2.2, location := some "main_document",
               collection := some name }, r2.1), [a1, a2])
    else (none, [a1, a2])
  else (none, [a1])

/-- The all-collections fallback loop (`src/server.js` lines 368-419):
collections are tried in `listCollections` order, each with the two
strategies, and the loop returns at the first match. -/
def searchLoop (sid url : String) (now : Nat) :
    List (String × List MDoc) → UpdResponse × List (String × List MDoc) × List Attempt
  | [] => (notFoundResp, [], [])
  | (name, docs) :: rest =>
    match tryCollectionTr name docs sid url now with
    | (some (resp, docs2), tr) => (resp, (name, docs2) :: rest, tr)
    | (none, tr) =>
      let r := searchLoop sid url now rest
      (r.1, (name, docs) :: r.2.1, tr ++ r.2.2)

/-- Replace the contents of collection `name` in the store. -/
def storeSet (store : List (String × List MDoc)) (name : String) (docs : List MDoc) :
    List (String × List MDoc) :=
  store.map fun c => if c.1 = name then (c.1, docs) else c

/-- The direct-MongoDB portion of `PUT /api/updateSubtopicVideo`
(`src/server.js` lines 313-426, reached when the Spring-Boot proxy of
lines 291-311 is unavailable).  When `subjectName` is given, that
collection is tried first (`dbConn.collection(subjectName)` of a name with
no documents yields an empty collection); then the loop walks every
collection.  Returns the response, the new store, and the audit trace of
`updateOne` attempts. -/
def updateSubtopicVideoDirect (store : List (String × List MDoc))
    (subjectName : Option String) (sid url : String) (now : Nat) :
    UpdResponse × List (String × List MDoc) × List Attempt :=
  match subjectName with
  | some sn =>
    match tryCollectionTr sn ((store.lookup sn).getD []) sid url now with
    | (some (resp, docs2), tr) => (resp, storeSet store sn docs2, tr)
    | (none, tr) =>
      let r := searchLoop sid url now store
      (r.1, r.2.1, tr ++ r.2.2)
  | none =>
    searchLoop sid url now store

/-- Response of the `part_000` variant: `ok = true` is its `status: "ok"`
JSON, `ok = false` its 404; `location` is the variant's `updateLocation`
string, left `"unknown"` when nothing matched. -/
structure UpdResponseP0 where
  ok : Bool
  updated : Nat
  location : String
deriving DecidableEq

/-- The 404 response of the `part_000` variant (lines 477-488). -/
def notFoundP0 : UpdResponseP0 :=
  { ok := false, updated := 0, location := "unknown" }

/-- ATTEMPT 3 of `src/unnamed/part_000` (lines 442-461): nested unit by
ObjectId-typed `_id`, skipped when the identifier does not parse. -/
def p0Attempt3 (docs : List MDoc) (sid url : String) (now : Nat) :
    UpdResponseP0 × List MDoc :=
  if isValidOid sid then
    let r := updateOneDocs (nestedUidOidPred sid) (nestedUidOidSet sid url now) docs
    if 0 < r.2.1 then
      ({ ok := true, updated := r.2.2, location := "nested_unit_objectid" }, r.1)
    else (notFoundP0, r.1)
  else (notFoundP0, docs)

/-- ATTEMPT 2 of `src/unnamed/part_000` (lines 423-439): nested unit by
string `_id`; falls through to ATTEMPT 3 when unmatched. -/
def p0Attempt2 (docs : List MDoc) (sid url : String) (now : Nat) :
    UpdResponseP0 × List MDoc :=
  let r := updateOneDocs (nestedUidStrPred sid) (nestedUidStrSet sid url now) docs
  if 0 < r.2.1 then
    ({ ok := true, updated := r.2.2, location := "nested_unit_string" }, r.1)
  else p0Attempt3 r.1 sid url now

/-- The `part_000` variant of `PUT /api/updateSubtopicVideo`
(lines 385-504): a single `Content` collection, ATTEMPT 1 the
main-document ObjectId update (its `ObjectId` parse failure caught and the
attempt skipped), then ATTEMPT 2 (nested string `_id`), then ATTEMPT 3
(nested ObjectId `_id`); 404 when all three miss. -/
def updateSubtopicVideoP0 (docs : List MDoc) (sid url : String) (now : Nat) :
    UpdResponseP0 × List MDoc :=
  if isValidOid sid then
    let r := updateOneDocs (mainDocPred sid) (mainDocSet url now) docs
    if 0 < r.2.1 then
      ({ ok := true, updated := r.2.2, location := "main_document" }, r.1)
    else p0Attempt2 r.1 sid url now
  else p0Attempt2 docs sid url now

/-- The request payload fields the endpoint reads (the remaining payload
fields are spread into the inserted document unexamined). -/
structure AddPayload where
  unitName : Option String
  explanation : Option String
  parentId : Option String
  subtopicId : Option String
  aiVideoUrl : Option String
deriving DecidableEq

/-- Response of `POST /api/addSubtopic`: status 400 for the missing
`unitName` validation, 500 for a thrown `ObjectId` parse failure, 200 with
the `insertedId`/`insertedSubId` identifiers otherwise; `parentUpdated`
reports `modifiedCount > 0` on the nested branch. -/
structure AddResponse where
  status : Nat
  insertedId : Option String
  insertedSubId : Option String
  parentUpdated : Option Bool
deriving DecidableEq

/-- A fresh `new ObjectId()` draw, modelled by an injected counter; the
generated identifiers are assumed distinct from everything already stored
(freshness hypotheses make this explicit where a theorem needs it). -/
def freshOid (n : Nat) : String :=
  "generated-" ++ toString n

/-- The nested element pushed by the `$push: {units: {...}}` of lines
534-544: its identity lives in the `_id` field (string-typed), there is no
`id` field, and `createdAt` is stamped but `updatedAt` is not. -/
def pushedUnit (payload : AddPayload) (uid : String) (now : Nat) : NUnit :=
  { nid := none, nuid := some (BVal.str uid), unitName := payload.unitName,
    explanation := payload.explanation,
    aiVideoUrl := some (payload.aiVideoUrl.getD ""), createdAt := some now,
    updatedAt := none }

/-- The `documentToInsert` of lines 520-525 for the top-level branch:
payload spread plus `_id` and both timestamps; the payload has no `units`
array. -/
def insertedDoc (payload : AddPayload) (docId : BVal) (now : Nat) : MDoc :=
  { mid := docId, unitName := payload.unitName, explanation := payload.explanation,
    parentId := payload.parentId, subtopicId := payload.subtopicId,
    aiVideoUrl := payload.aiVideoUrl, createdAt := some now, updatedAt := some now,
    units := [] }

/-- `POST /api/addSubtopic` of `src/unnamed/part_000` lines 507-573 on the
`Content` collection.  Missing (falsy) `unitName` is a 400.  The
`documentToInsert` header draws a fresh ObjectId on the nested branch and
parses `subtopicId` (throwing — 500 — when invalid) on the top-level
branch.  With a truthy `parentId` (500 if it does not parse), the unit is
`$push`ed into the first document whose `_id` is that ObjectId, and the
response is `status: "ok"` REGARDLESS of the push's `matchedCount`, with
`insertedId` and `insertedSubId` each re-evaluating
`payload.subtopicId || new ObjectId().toString()` (a separate fresh draw
each time when `subtopicId` is falsy).  Without `parentId` the document is
inserted top-level.  Returns the response, the new collection contents and
the advanced fresh-id counter. -/
def addSubtopic (docs : List MDoc) (payload : AddPayload) (now ctr : Nat) :
    AddResponse × List MDoc × Nat :=
  if ¬ truthy payload.unitName then
    ({ status := 400, insertedId := none, insertedSubId := none, parentUpdated := none },
      docs, ctr)
  else if truthy payload.parentId then
    let ctr1 := ctr + 1
    let p := payload.parentId.getD ""
    if isValidOid p then
      let uid := if truthy payload.subtopicId then payload.subtopicId.getD ""
        else freshOid ctr1
      let ctr2 := if truthy payload.subtopicId then ctr1 else ctr1 + 1
      let r := updateOneDocs (mainDocPred p)
        (fun d => { d with units := d.units ++ [pushedUnit payload uid now] }) docs
      let rid1 := if truthy payload.subtopicId then payload.subtopicId.getD ""
        else freshOid ctr2
      let ctr3 := if truthy payload.subtopicId then ctr2 else ctr2 + 1
      let rid2 := if truthy payload.subtopicId then payload.subtopicId.getD ""
        else freshOid ctr3
      let ctr4 := if truthy payload.subtopicId then ctr3 else ctr3 + 1
      ({ status := 200, insertedId := some rid1, insertedSubId := some rid2,
         parentUpdated := some (decide (0 < r.2.2)) }, r.1, ctr4)
    else
      ({ status := 500, insertedId := none, insertedSubId := none, parentUpdated := none },
        docs, ctr1)
  else if truthy payload.subtopicId then
    let s := payload.subtopicId.getD ""
    if isValidOid s then
      ({ status := 200, insertedId := some s, insertedSubId := some s,
         parentUpdated := none }, docs ++ [insertedDoc payload (BVal.oid s) now], ctr)
    else
      ({ status := 500, insertedId := none, insertedSubId := none, parentUpdated := none },
        docs, ctr)
  else
    ({ status := 200, insertedId := some (freshOid ctr), insertedSubId := some (freshOid ctr),
       parentUpdated := none }, docs ++ [insertedDoc payload (BVal.oid (freshOid ctr)) now],
      ctr + 1)

/-- Total number of nested units across a collection. -/
def totalUnits (ds : List MDoc) : Nat :=
  (ds.map fun d => d.units.length).sum

/-- Number of attempts in a trace that actually matched (each matched
attempt is one committed write). -/
def attemptsMatched (tr : List Attempt) : Nat :=
  (tr.filter fun a => decide (0 < a.matched)).length

/-- A trace stops at the first match: every attempt except possibly the
final one matched nothing (so nothing is ever tried after a match). -/
def stopAtFirstMatch (tr : List Attempt) : Prop :=
  ∀ a ∈ tr.dropLast, a.matched = 0

/-- A syntactically valid ObjectId string (24 hex characters). -/
def exOid : String := "aaaaaaaaaaaaaaaaaaaaaaaa"

/-- A second, distinct valid ObjectId string. -/
def exOid2 : String := "bbbbbbbbbbbbbbbbbbbbbbbb"

/-- The result URL of the spec's poll scenario. -/
def exUrl : String := "https://cdn/video1.mp4"

/-- A nested unit with every optional field absent. -/
def blankUnit : NUnit :=
  { nid := none, nuid := none, unitName := none, explanation := none,
    aiVideoUrl := none, createdAt := none, updatedAt := none }

/-- A top-level document with no optional fields and no units. -/
def blankDoc : MDoc :=
  { mid := BVal.oid exOid2, unitName := none, explanation := none, parentId := none,
    subtopicId := none, aiVideoUrl := none, createdAt := none, updatedAt := none, units := [] }

/-- part_000 store: one document holds `exOid` as a nested string `_id`,
another is the top-level document with native id `exOid` — the record is
reachable by both the nested-string and the main-document strategy. -/
def c1Unit : NUnit := { blankUnit with nuid := some (BVal.str exOid), unitName := some "Optics" }

/-- The parent holding `c1Unit` (its own id is unrelated). -/
def c1Parent : MDoc := { blankDoc with units := [c1Unit] }

/-- The top-level document whose native `_id` equals `exOid`. -/
def c1Main : MDoc := { blankDoc with mid := BVal.oid exOid }

/-- The doubly-reachable `Content` collection, nested-string document
first. -/
def c1Docs : List MDoc := [c1Parent, c1Main]

/-- server.js store: the same double reachability in the `"units.id"`
shape that `src/server.js` queries. -/
def c1wUnit : NUnit := { blankUnit with nid := some (BVal.str exOid) }

/-- Parent of `c1wUnit`. -/
def c1wParent : MDoc := { blankDoc with units := [c1wUnit] }

/-- Store for the server.js double-reachability witness. -/
def c1wStore : List (String × List MDoc) := [("physics", [c1wParent, c1Main])]

/-- A provider polling `inProgress, inProgress, done` with the scenario's
result URL. -/
def exProvider3 : Nat → PollResp :=
  fun k => if k < 2 then ⟨"inProgress", ""⟩ else ⟨"done", exUrl⟩

/-- A provider whose second poll is the terminal `failed`. -/
def exProviderFail2 : Nat → PollResp :=
  fun k => if k < 1 then ⟨"inProgress", ""⟩ else ⟨"failed", ""⟩

/-- The spec's `attachVideo` scenario store: collection `physics` holds a
document with `units: [{id: "sub-42"}]`. -/
def c3Unit : NUnit := { blankUnit with nid := some (BVal.str "sub-42") }

/-- Parent of `c3Unit`. -/
def c3Parent : MDoc := { blankDoc with units := [c3Unit] }

/-- Store for the repeat-update scenario. -/
def c3Store : List (String × List MDoc) := [("physics", [c3Parent])]

/-- The store after the first `attachVideo("sub-42", exUrl)` at time 5. -/
def c3Store1 : List (String × List MDoc) :=
  (updateSubtopicVideoDirect c3Store (some "physics") "sub-42" exUrl 5).2.1

/-- Store with no `"units.id"` match for `"sub-42"` anywhere. -/
def c7Store : List (String × List MDoc) := [("physics", [blankDoc]), ("maths", [c1Main])]

/-- part_000 collection holding `"sub-42"` as a nested string `_id`. -/
def c7Unit : NUnit := { blankUnit with nuid := some (BVal.str "sub-42") }

/-- Parent of `c7Unit`. -/
def c7Parent : MDoc := { blankDoc with units := [c7Unit] }

/-- Collection for the part_000 parse-skip witness. -/
def c7Docs : List MDoc := [c7Parent]

/-- A stored parent document with native id `exOid`. -/
def c9Parent : MDoc := { blankDoc with mid := BVal.oid exOid }

/-- Store containing only `c9Parent`. -/
def c9Docs : List MDoc := [c9Parent]

/-- Payload declaring the existing parent `exOid`. -/
def c9PayloadNested : AddPayload :=
  { unitName := some "Optics", explanation := none, parentId := some exOid,
    subtopicId := some "sub-9", aiVideoUrl := none }

/-- Payload with no parent: top-level insertion. -/
def c9PayloadTop : AddPayload :=
  { unitName := some "Optics", explanation := none, parentId := none,
    subtopicId := none, aiVideoUrl := none }

/-- Payload missing the mandatory `unitName`. -/
def c9PayloadBad : AddPayload :=
  { unitName := none, explanation := none, parentId := some exOid,
    subtopicId := none, aiVideoUrl := none }

/-- Payload declaring the ABSENT parent `exOid2` (no stored document has
that native id). -/
def c10Payload : AddPayload :=
  { unitName := some "Optics", explanation := none, parentId := some exOid2,
    subtopicId := none, aiVideoUrl := none }

/-! ## Theorems -/

example : awaitCompletion constInProgress 1 3 = some (JobOutcome.timeout, 3) := by decide

example : awaitCompletion constFailed 1 3 = some (JobOutcome.providerError, 1) := by decide

example : awaitCompletion (fun _ => ⟨"done", "u"⟩) 1 3 = some (JobOutcome.success "u", 1) := by
  decide

example : (generateAndUploadP3 (some "Kinematics") none (fun _ => ⟨"done", "u"⟩)).2 = 1 := by
  decide

/-- With fuel exceeding the remaining budget, the fueled loop always
reaches a terminal answer (for the code, `pollInterval = 3000 ≥ 1`), and
the reported poll count never drops below the polls already made. -/
theorem pollLoopFuel_total (provider : Nat → PollResp) (pollInterval maxWait : Nat)
    (hpi : 1 ≤ pollInterval) :
    ∀ fuel k elapsed, maxWait < elapsed + fuel →
      ∃ o n, pollLoopFuel provider pollInterval maxWait fuel k elapsed = some (o, n) ∧ k ≤ n := by
  intro fuel
  induction fuel with
  | zero =>
    intro k elapsed h
    rw [pollLoopFuel]
    have : maxWait ≤ elapsed := by omega
    simp only [if_pos this]
    exact ⟨JobOutcome.timeout, k, rfl, Nat.le_refl k⟩
  | succ fuel ih =>
    intro k elapsed h
    rw [pollLoopFuel]
    by_cases hel : maxWait ≤ elapsed
    · simp only [if_pos hel]
      exact ⟨JobOutcome.timeout, k, rfl, Nat.le_refl k⟩
    · simp only [if_neg hel]
      by_cases hdone : (provider k).status = "done"
      · simp only [if_pos hdone]
        exact ⟨JobOutcome.success (provider k).result_url, k + 1, rfl, Nat.le_succ k⟩
      · by_cases hfail : (provider k).status = "failed"
        · simp only [if_neg hdone, if_pos hfail]
          exact ⟨JobOutcome.providerError, k + 1, rfl, Nat.le_succ k⟩
        · simp only [if_neg hdone, if_neg hfail]
          obtain ⟨o, n, heq, hn⟩ := ih (k + 1) (elapsed + pollInterval) (by omega)
          exact ⟨o, n, heq, by omega⟩

/-- If every poll up to the `j`-th (exclusive) is non-terminal, the loop
advances past them unchanged apart from the poll counter and the elapsed
time. -/
theorem pollLoopFuel_skip (provider : Nat → PollResp) (pollInterval maxWait : Nat) :
    ∀ j fuel k elapsed,
      (∀ i, i < j → (provider (k + i)).status ≠ "done" ∧ (provider (k + i)).status ≠ "failed") →
      elapsed + j * pollInterval < maxWait →
      pollLoopFuel provider pollInterval maxWait (fuel + j) k elapsed =
        pollLoopFuel provider pollInterval maxWait fuel (k + j) (elapsed + j * pollInterval) := by
  intro j
  induction j with
  | zero => intro fuel k elapsed _ _; simp
  | succ j ih =>
    intro fuel k elapsed hnt hbound
    have hel : ¬ maxWait ≤ elapsed := by
      have := Nat.le_add_right elapsed ((j + 1) * pollInterval)
      omega
    have h0 := hnt 0 (by omega)
    simp only [Nat.add_zero] at h0
    have hstep : fuel + (j + 1) = (fuel + j) + 1 := by omega
    rw [hstep, pollLoopFuel]
    simp only [if_neg hel, if_neg h0.1, if_neg h0.2]
    have hnt' : ∀ i, i < j →
        (provider (k + 1 + i)).status ≠ "done" ∧ (provider (k + 1 + i)).status ≠ "failed" := by
      intro i hi
      have := hnt (i + 1) (by omega)
      have harg : k + (i + 1) = k + 1 + i := by omega
      rwa [harg] at this
    have hbound' : elapsed + pollInterval + j * pollInterval < maxWait := by
      have : elapsed + (j + 1) * pollInterval =
          elapsed + pollInterval + j * pollInterval := by ring
      omega
    rw [ih fuel (k + 1) (elapsed + pollInterval) hnt' hbound']
    have h1 : k + 1 + j = k + (j + 1) := by omega
    have h2 : elapsed + pollInterval + j * pollInterval = elapsed + (j + 1) * pollInterval := by
      ring
    rw [h1, h2]

/-- If no poll ever answers a terminal status, the fueled loop (given fuel
beyond the budget) terminates with `timeout`. -/
theorem pollLoopFuel_timeout (provider : Nat → PollResp) (pollInterval maxWait : Nat)
    (hpi : 1 ≤ pollInterval)
    (hnt : ∀ i, (provider i).status ≠ "done" ∧ (provider i).status ≠ "failed") :
    ∀ fuel k elapsed, maxWait < elapsed + fuel →
      ∃ n, pollLoopFuel provider pollInterval maxWait fuel k elapsed =
        some (JobOutcome.timeout, n) := by
  intro fuel
  induction fuel with
  | zero =>
    intro k elapsed h
    rw [pollLoopFuel]
    have : maxWait ≤ elapsed := by omega
    simp only [if_pos this]
    exact ⟨k, rfl⟩
  | succ fuel ih =>
    intro k elapsed h
    rw [pollLoopFuel]
    by_cases hel : maxWait ≤ elapsed
    · simp only [if_pos hel]
      exact ⟨k, rfl⟩
    · simp only [if_neg hel, if_neg (hnt k).1, if_neg (hnt k).2]
      exact ih (k + 1) (elapsed + pollInterval) (by omega)

/-- If the first terminal poll is the `j`-th and it answers `done` within
the budget, `awaitCompletion` succeeds with exactly that result URL after
exactly `j + 1` polls. -/
theorem awaitCompletion_first_done (provider : Nat → PollResp)
    (pollInterval maxWait j : Nat) (hpi : 1 ≤ pollInterval)
    (hnt : ∀ i, i < j → (provider i).status ≠ "done" ∧ (provider i).status ≠ "failed")
    (hdone : (provider j).status = "done") (hj : j * pollInterval < maxWait) :
    awaitCompletion provider pollInterval maxWait =
      some (JobOutcome.success (provider j).result_url, j + 1) := by
  have hjm : j < maxWait := by
    calc j = j * 1 := (Nat.mul_one j).symm
    _ ≤ j * pollInterval := Nat.mul_le_mul_left j hpi
    _ < maxWait := hj
  have hsplit : maxWait + 1 = (maxWait + 1 - j) + j := by omega
  have hnt0 : ∀ i, i < j →
      (provider (0 + i)).status ≠ "done" ∧ (provider (0 + i)).status ≠ "failed" := by
    intro i hi; simpa using hnt i hi
  unfold awaitCompletion
  rw [hsplit, pollLoopFuel_skip provider pollInterval maxWait j (maxWait + 1 - j) 0 0 hnt0
    (by simpa using hj)]
  have hfuel : maxWait + 1 - j = (maxWait - j) + 1 := by omega
  rw [hfuel, pollLoopFuel]
  have hguard : ¬ maxWait ≤ 0 + j * pollInterval := by omega
  have hguard2 : ¬ maxWait ≤ j * pollInterval := by omega
  simp only [if_neg hguard, Nat.zero_add, if_pos hdone, if_neg hguard2]

/-- If the first terminal poll is the `j`-th and it answers `failed` within
the budget, `awaitCompletion` stops right there (after exactly `j + 1`
polls) with the provider-error outcome. -/
theorem awaitCompletion_first_failed (provider : Nat → PollResp)
    (pollInterval maxWait j : Nat) (hpi : 1 ≤ pollInterval)
    (hnt : ∀ i, i < j → (provider i).status ≠ "done" ∧ (provider i).status ≠ "failed")
    (hfail : (provider j).status = "failed") (hj : j * pollInterval < maxWait) :
    awaitCompletion provider pollInterval maxWait =
      some (JobOutcome.providerError, j + 1) := by
  have hjm : j < maxWait := by
    calc j = j * 1 := (Nat.mul_one j).symm
    _ ≤ j * pollInterval := Nat.mul_le_mul_left j hpi
    _ < maxWait := hj
  have hsplit : maxWait + 1 = (maxWait + 1 - j) + j := by omega
  have hnt0 : ∀ i, i < j →
      (provider (0 + i)).status ≠ "done" ∧ (provider (0 + i)).status ≠ "failed" := by
    intro i hi; simpa using hnt i hi
  unfold awaitCompletion
  rw [hsplit, pollLoopFuel_skip provider pollInterval maxWait j (maxWait + 1 - j) 0 0 hnt0
    (by simpa using hj)]
  have hfuel : maxWait + 1 - j = (maxWait - j) + 1 := by omega
  rw [hfuel, pollLoopFuel]
  have hguard : ¬ maxWait ≤ 0 + j * pollInterval := by omega
  have hguard2 : ¬ maxWait ≤ j * pollInterval := by omega
  have hnd : (provider j).status ≠ "done" := by
    rw [hfail]; decide
  simp only [if_neg hguard, Nat.zero_add, if_neg hnd, if_pos hfail, if_neg hguard2]

/-- The unbounded legacy loop makes no progress towards an answer on any
poll that is not `done`: with a never-`done` provider it is still running
after every number of steps. -/
theorem pollLoopUnbounded_never (provider : Nat → PollResp)
    (h : ∀ i, (provider i).status ≠ "done") : unboundedRunsForever provider := by
  intro fuel
  induction fuel with
  | zero => intro k; rfl
  | succ fuel ih =>
    intro k
    rw [pollLoopUnbounded]
    simp only [if_neg (h k)]
    exact ih (k + 1)

/-- `updateOne` reports `matchedCount` 1 exactly when some document
satisfies the filter. -/
theorem updateOneDocs_matched (p : MDoc → Bool) (f : MDoc → MDoc) :
    ∀ ds : List MDoc, (updateOneDocs p f ds).2.1 = if ds.any p then 1 else 0 := by
  intro ds
  induction ds with
  | nil => simp [updateOneDocs]
  | cons d tl ih =>
    by_cases h : p d
    · simp [updateOneDocs, h]
    · simp [updateOneDocs, h, ih]

/-- An unmatched `updateOne` writes nothing. -/
theorem updateOneDocs_unmatched (p : MDoc → Bool) (f : MDoc → MDoc) :
    ∀ ds : List MDoc, ds.any p = false → (updateOneDocs p f ds).1 = ds := by
  intro ds
  induction ds with
  | nil => intro _; rfl
  | cons d tl ih =>
    intro h
    simp only [List.any_cons, Bool.or_eq_false_iff] at h
    simp [updateOneDocs, h.1, ih h.2]

/-- `updateOne` never inserts or deletes documents. -/
theorem updateOneDocs_length (p : MDoc → Bool) (f : MDoc → MDoc) :
    ∀ ds : List MDoc, (updateOneDocs p f ds).1.length = ds.length := by
  intro ds
  induction ds with
  | nil => rfl
  | cons d tl ih =>
    by_cases h : p d
    · simp [updateOneDocs, h]
    · simp [updateOneDocs, h, ih]

/-- An `updateOne` whose update adds exactly one element to the matched
document's `units` array grows the collection's total unit count by one. -/
theorem updateOneDocs_totalUnits (p : MDoc → Bool) (f : MDoc → MDoc)
    (hf : ∀ d, p d → (f d).units.length = d.units.length + 1) :
    ∀ ds : List MDoc, ds.any p = true →
      totalUnits (updateOneDocs p f ds).1 = totalUnits ds + 1 := by
  intro ds
  induction ds with
  | nil => intro h; simp at h
  | cons d tl ih =>
    intro h
    by_cases hd : p d
    · simp [updateOneDocs, hd, totalUnits, hf d hd]
      omega
    · simp only [List.any_cons, hd, Bool.false_or] at h
      have ih2 := ih h
      have hcons : (updateOneDocs p f (d :: tl)).1 = d :: (updateOneDocs p f tl).1 := by
        simp [updateOneDocs, hd]
      unfold totalUnits at ih2 ⊢
      rw [hcons]
      simp only [List.map_cons, List.sum_cons]
      omega

/-- When the two strategies of one collection both miss, every recorded
attempt matched nothing. -/
theorem tryCollectionTr_none (name : String) (docs : List MDoc) (sid url : String)
    (now : Nat) (h : (tryCollectionTr name docs sid url now).1 = none) :
    ∀ a ∈ (tryCollectionTr name docs sid url now).2, a.matched = 0 := by
  by_cases h1 : 0 < (updateOneDocs (nestedIdPred sid) (nestedIdSet sid url now) docs).2.1
  · exfalso
    simp [tryCollectionTr, h1] at h
  · by_cases h2 : isValidOid sid
    · by_cases h3 : 0 < (updateOneDocs (mainDocPred sid) (mainDocSet url now) docs).2.1
      · exfalso
        simp [tryCollectionTr, h1, h2, h3] at h
      · intro a ha
        simp [tryCollectionTr, h1, h2, h3] at ha
        rcases ha with rfl | rfl <;> simp <;> omega
    · intro a ha
      simp [tryCollectionTr, h1, h2] at ha
      subst ha
      simp
      omega

/-- The per-collection strategy pair stops at its first match and commits
at most one write. -/
theorem tryCollectionTr_good (name : String) (docs : List MDoc) (sid url : String)
    (now : Nat) :
    stopAtFirstMatch (tryCollectionTr name docs sid url now).2 ∧
      attemptsMatched (tryCollectionTr name docs sid url now).2 ≤ 1 := by
  by_cases h1 : 0 < (updateOneDocs (nestedIdPred sid) (nestedIdSet sid url now) docs).2.1
  · have ht : (tryCollectionTr name docs sid url now).2 =
        [⟨name, "nested_unit", (updateOneDocs (nestedIdPred sid) (nestedIdSet sid url now) docs).2.1⟩] := by
      simp [tryCollectionTr, h1]
    rw [ht]
    constructor
    · intro a ha; simp [stopAtFirstMatch, List.dropLast] at ha
    · exact le_trans (List.length_filter_le _ _) (by simp)
  · have hm1 : (updateOneDocs (nestedIdPred sid) (nestedIdSet sid url now) docs).2.1 = 0 := by
      omega
    by_cases h2 : isValidOid sid
    · have ht : (tryCollectionTr name docs sid url now).2 =
          [⟨name, "nested_unit", 0⟩,
           ⟨name, "main_document", (updateOneDocs (mainDocPred sid) (mainDocSet url now) docs).2.1⟩] := by
        by_cases h3 : 0 < (updateOneDocs (mainDocPred sid) (mainDocSet url now) docs).2.1
        · simp [tryCollectionTr, h1, h2, h3, hm1]
        · simp [tryCollectionTr, h1, h2, h3, hm1]
      rw [ht]
      constructor
      · intro a ha
        simp [List.dropLast] at ha
        subst ha
        rfl
      · by_cases hm2 : 0 < (updateOneDocs (mainDocPred sid) (mainDocSet url now) docs).2.1
        · simp [attemptsMatched, hm2]
        · simp [attemptsMatched, hm2]
    · have ht : (tryCollectionTr name docs sid url now).2 = [⟨name, "nested_unit", 0⟩] := by
        simp [tryCollectionTr, h1, h2, hm1]
      rw [ht]
      constructor
      · intro a ha; simp [List.dropLast] at ha
      · simp [attemptsMatched]

/-- Prepending attempts that all missed preserves the stop-at-first-match
shape of a trace and its write count. -/
theorem stopAtFirstMatch_append (xs ys : List Attempt)
    (hx : ∀ a ∈ xs, a.matched = 0) (hy : stopAtFirstMatch ys) :
    stopAtFirstMatch (xs ++ ys) ∧ attemptsMatched (xs ++ ys) = attemptsMatched ys := by
  constructor
  · cases ys with
    | nil =>
      intro a ha
      simp only [List.append_nil] at ha
      exact hx a (List.mem_of_mem_dropLast ha)
    | cons y ys =>
      intro a ha
      rw [List.dropLast_append_cons] at ha
      rcases List.mem_append.mp ha with hmem | hmem
      · exact hx a hmem
      · exact hy a hmem
  · have hfx : xs.filter (fun a => decide (0 < a.matched)) = [] := by
      rw [List.filter_eq_nil_iff]
      intro a ha
      simp [hx a ha]
    simp [attemptsMatched, List.filter_append, hfx]

/-- The all-collections loop stops at its first match and commits at most
one write. -/
theorem searchLoop_good (sid url : String) (now : Nat) :
    ∀ colls : List (String × List MDoc),
      stopAtFirstMatch (searchLoop sid url now colls).2.2 ∧
        attemptsMatched (searchLoop sid url now colls).2.2 ≤ 1 := by
  intro colls
  induction colls with
  | nil =>
    constructor
    · intro a ha; simp [searchLoop] at ha
    · simp [searchLoop, attemptsMatched]
  | cons c rest ih =>
    obtain ⟨name, docs⟩ := c
    rcases htc : tryCollectionTr name docs sid url now with ⟨res, tr⟩
    cases res with
    | some r =>
      have hgood := tryCollectionTr_good name docs sid url now
      rw [htc] at hgood
      constructor
      · show stopAtFirstMatch (searchLoop sid url now ((name, docs) :: rest)).2.2
        simp only [searchLoop, htc]
        exact hgood.1
      · show attemptsMatched (searchLoop sid url now ((name, docs) :: rest)).2.2 ≤ 1
        simp only [searchLoop, htc]
        exact hgood.2
    | none =>
      have hzero := tryCollectionTr_none name docs sid url now (by rw [htc])
      rw [htc] at hzero
      have happ := stopAtFirstMatch_append tr (searchLoop sid url now rest).2.2 hzero ih.1
      constructor
      · show stopAtFirstMatch (searchLoop sid url now ((name, docs) :: rest)).2.2
        simp only [searchLoop, htc]
        exact happ.1
      · show attemptsMatched (searchLoop sid url now ((name, docs) :: rest)).2.2 ≤ 1
        simp only [searchLoop, htc]
        rw [happ.2]
        exact ih.2

/-- The whole direct-update endpoint stops at its first match and commits
at most one write, for every store, subject hint, identifier, URL and
time. -/
theorem updateSubtopicVideoDirect_good (store : List (String × List MDoc))
    (subjectName : Option String) (sid url : String) (now : Nat) :
    stopAtFirstMatch (updateSubtopicVideoDirect store subjectName sid url now).2.2 ∧
      attemptsMatched (updateSubtopicVideoDirect store subjectName sid url now).2.2 ≤ 1 := by
  cases subjectName with
  | none =>
    simp only [updateSubtopicVideoDirect]
    exact searchLoop_good sid url now store
  | some sn =>
    rcases htc : tryCollectionTr sn ((store.lookup sn).getD []) sid url now with ⟨res, tr⟩
    cases res with
    | some r =>
      have hgood := tryCollectionTr_good sn ((store.lookup sn).getD []) sid url now
      rw [htc] at hgood
      constructor
      · show stopAtFirstMatch (updateSubtopicVideoDirect store (some sn) sid url now).2.2
        simp only [updateSubtopicVideoDirect, htc]
        exact hgood.1
      · show attemptsMatched (updateSubtopicVideoDirect store (some sn) sid url now).2.2 ≤ 1
        simp only [updateSubtopicVideoDirect, htc]
        exact hgood.2
    | none =>
      have hzero := tryCollectionTr_none sn ((store.lookup sn).getD []) sid url now
        (by rw [htc])
      rw [htc] at hzero
      have hloop := searchLoop_good sid url now store
      have happ := stopAtFirstMatch_append tr (searchLoop sid url now store).2.2 hzero hloop.1
      constructor
      · show stopAtFirstMatch (updateSubtopicVideoDirect store (some sn) sid url now).2.2
        simp only [updateSubtopicVideoDirect, htc]
        exact happ.1
      · show attemptsMatched (updateSubtopicVideoDirect store (some sn) sid url now).2.2 ≤ 1
        simp only [updateSubtopicVideoDirect, htc]
        rw [happ.2]
        exact hloop.2

/-- The video `$set` does not touch an element's identity, so element
filters are preserved. -/
theorem unitIdStrPred_setUnitVideo (sid url : String) (t : Nat) (u : NUnit) :
    unitIdStrPred sid (setUnitVideo url t u) = unitIdStrPred sid u := rfl

/-- A filter-preserving element update preserves `any` over the array. -/
theorem updateFirstUnit_any (p : NUnit → Bool) (f : NUnit → NUnit)
    (hpf : ∀ u, p (f u) = p u) :
    ∀ us : List NUnit, ((updateFirstUnit p f us).any p) = us.any p := by
  intro us
  induction us with
  | nil => rfl
  | cons u us ih =>
    by_cases hp : p u
    · simp [updateFirstUnit, hp, hpf]
    · simp [updateFirstUnit, hp, ih]

/-- Applying the positional update twice with the same filter targets the
same element, composing the two updates. -/
theorem updateFirstUnit_twice (p : NUnit → Bool) (f g : NUnit → NUnit)
    (hpf : ∀ u, p (f u) = p u) :
    ∀ us : List NUnit,
      updateFirstUnit p g (updateFirstUnit p f us) =
        updateFirstUnit p (fun u => g (f u)) us := by
  intro us
  induction us with
  | nil => rfl
  | cons u us ih =>
    by_cases hp : p u
    · simp [updateFirstUnit, hp, hpf]
    · simp [updateFirstUnit, hp, ih]

/-- Overwriting the video `$set` with a later one keeps only the later
values. -/
theorem setUnitVideo_setUnitVideo (url : String) (t1 t0 : Nat) (u : NUnit) :
    setUnitVideo url t1 (setUnitVideo url t0 u) = setUnitVideo url t1 u := rfl

/-- When the array contains a matching element, two video `$set`s with the
same URL write the same array exactly when their timestamps coincide. -/
theorem updateFirstUnit_setVideo_eq_iff (p : NUnit → Bool) (url : String) (t1 t0 : Nat) :
    ∀ us : List NUnit, us.any p = true →
      (updateFirstUnit p (setUnitVideo url t1) us =
          updateFirstUnit p (setUnitVideo url t0) us ↔ t1 = t0) := by
  intro us
  induction us with
  | nil => intro h; simp at h
  | cons u us ih =>
    intro h
    by_cases hp : p u
    · simp [updateFirstUnit, hp, setUnitVideo, NUnit.mk.injEq]
    · simp only [List.any_cons, hp, Bool.false_or] at h
      simp [updateFirstUnit, hp, ih h]

/-- The nested-unit `$set` does not touch identities, so the document
filter is preserved. -/
theorem nestedIdPred_nestedIdSet (sid url : String) (t : Nat) (d : MDoc) :
    nestedIdPred sid (nestedIdSet sid url t d) = nestedIdPred sid d := by
  show (updateFirstUnit (unitIdStrPred sid) (setUnitVideo url t) d.units).any
    (unitIdStrPred sid) = d.units.any (unitIdStrPred sid)
  exact updateFirstUnit_any (unitIdStrPred sid) (setUnitVideo url t)
    (fun u => unitIdStrPred_setUnitVideo sid url t u) d.units

/-- A filter-preserving `updateOne` preserves `any` over the collection. -/
theorem updateOneDocs_any (p : MDoc → Bool) (f : MDoc → MDoc)
    (hpf : ∀ d, p (f d) = p d) :
    ∀ ds : List MDoc, ((updateOneDocs p f ds).1).any p = ds.any p := by
  intro ds
  induction ds with
  | nil => rfl
  | cons d ds ih =>
    by_cases hp : p d
    · simp [updateOneDocs, hp, hpf]
    · simp [updateOneDocs, hp, ih]

/-- `modifiedCount` is 1 exactly when the write changed the collection. -/
theorem updateOneDocs_modified (p : MDoc → Bool) (f : MDoc → MDoc) :
    ∀ ds : List MDoc,
      (updateOneDocs p f ds).2.2 = if (updateOneDocs p f ds).1 = ds then 0 else 1 := by
  intro ds
  induction ds with
  | nil => simp [updateOneDocs]
  | cons d ds ih =>
    by_cases hp : p d
    · have hiff : (f d :: ds = d :: ds) ↔ f d = d := by simp
      simp only [updateOneDocs, if_pos hp]
      rw [if_congr hiff rfl rfl]
    · have hiff : (d :: (updateOneDocs p f ds).1 = d :: ds) ↔ (updateOneDocs p f ds).1 = ds := by
        simp
      simp only [updateOneDocs, if_neg hp]
      rw [ih, if_congr hiff rfl rfl]

/-- An unmatched `updateOne` modifies nothing. -/
theorem updateOneDocs_unmodified (p : MDoc → Bool) (f : MDoc → MDoc)
    (ds : List MDoc) (h : ds.any p = false) : (updateOneDocs p f ds).2.2 = 0 := by
  rw [updateOneDocs_modified, if_pos (updateOneDocs_unmatched p f ds h)]

/-- Re-running the nested video update over the already-updated collection
reports `modifiedCount` 0 exactly when the timestamp is unchanged, and 1
otherwise (the refreshed `units.$.updatedAt` differs). -/
theorem updateOneDocs_second_update (sid url : String) (t0 t1 : Nat) :
    ∀ ds : List MDoc, ds.any (nestedIdPred sid) = true →
      (updateOneDocs (nestedIdPred sid) (nestedIdSet sid url t1)
        ((updateOneDocs (nestedIdPred sid) (nestedIdSet sid url t0) ds).1)).2.2 =
        if t1 = t0 then 0 else 1 := by
  intro ds
  induction ds with
  | nil => intro h; simp at h
  | cons d ds ih =>
    intro h
    by_cases hp : nestedIdPred sid d
    · have hpu : d.units.any (unitIdStrPred sid) = true := hp
      have hp0 : nestedIdPred sid (nestedIdSet sid url t0 d) = true := by
        rw [nestedIdPred_nestedIdSet]; exact hp
      have hstep : nestedIdSet sid url t1 (nestedIdSet sid url t0 d) =
          { d with units := updateFirstUnit (unitIdStrPred sid) (setUnitVideo url t1) d.units } := by
        show ({ d with
          units := updateFirstUnit (unitIdStrPred sid) (setUnitVideo url t1)
            (updateFirstUnit (unitIdStrPred sid) (setUnitVideo url t0) d.units) } : MDoc) = _
        rw [updateFirstUnit_twice (unitIdStrPred sid) (setUnitVideo url t0) (setUnitVideo url t1)
          (fun u => unitIdStrPred_setUnitVideo sid url t0 u)]
        rfl
      have hcomp : nestedIdSet sid url t1 (nestedIdSet sid url t0 d) =
          nestedIdSet sid url t0 d ↔ t1 = t0 := by
        rw [hstep]
        constructor
        · intro hEq
          have h2 := congrArg MDoc.units hEq
          exact (updateFirstUnit_setVideo_eq_iff _ url t1 t0 d.units hpu).mp h2
        · intro hEq
          subst hEq
          rfl
      have hfst : (updateOneDocs (nestedIdPred sid) (nestedIdSet sid url t0) (d :: ds)).1 =
          nestedIdSet sid url t0 d :: ds := by
        simp [updateOneDocs, hp]
      rw [hfst]
      simp only [updateOneDocs, if_pos hp0]
      rw [if_congr hcomp rfl rfl]
    · have hds : ds.any (nestedIdPred sid) = true := by
        simp only [List.any_cons, hp, Bool.false_or] at h
        exact h
      have hfst : (updateOneDocs (nestedIdPred sid) (nestedIdSet sid url t0) (d :: ds)).1 =
          d :: (updateOneDocs (nestedIdPred sid) (nestedIdSet sid url t0) ds).1 := by
        simp [updateOneDocs, hp]
      rw [hfst]
      have hsnd : (updateOneDocs (nestedIdPred sid) (nestedIdSet sid url t1)
          (d :: (updateOneDocs (nestedIdPred sid) (nestedIdSet sid url t0) ds).1)).2.2 =
          (updateOneDocs (nestedIdPred sid) (nestedIdSet sid url t1)
            ((updateOneDocs (nestedIdPred sid) (nestedIdSet sid url t0) ds).1)).2.2 := by
        simp [updateOneDocs, hp]
      rw [hsnd, ih hds]

/-- Replacing a present collection's contents is what a later lookup sees. -/
theorem lookup_storeSet (sn : String) (ds : List MDoc) :
    ∀ store : List (String × List MDoc), (store.lookup sn).isSome = true →
      (storeSet store sn ds).lookup sn = some ds := by
  intro store
  induction store with
  | nil => intro h; simp [List.lookup] at h
  | cons c rest ih =>
    intro h
    obtain ⟨n, docs⟩ := c
    by_cases hn : n = sn
    · subst hn
      have hmap : storeSet ((n, docs) :: rest) n ds = (n, ds) :: storeSet rest n ds := by
        simp [storeSet]
      rw [hmap]
      simp [List.lookup]
    · have hne : (sn == n) = false := by
        simp [beq_eq_false_iff_ne]
        exact fun hEq => hn hEq.symm
      simp only [List.lookup, hne] at h
      simp only [storeSet, List.map_cons, if_neg hn]
      have ih2 := ih h
      simp only [storeSet] at ih2
      simp [List.lookup, hne, ih2]

/-- When the subject-named collection contains a `"units.id"` match, the
endpoint commits exactly the nested-unit update there and reports
`location: "nested_unit"` for that collection — the main-document strategy
and the other collections are never consulted. -/
theorem updateSubtopicVideoDirect_subject_nested (store : List (String × List MDoc))
    (sn : String) (docs : List MDoc) (sid url : String) (now : Nat)
    (hlook : store.lookup sn = some docs) (hnested : docs.any (nestedIdPred sid) = true) :
    updateSubtopicVideoDirect store (some sn) sid url now =
      ({ ok := true,
         updated := (updateOneDocs (nestedIdPred sid) (nestedIdSet sid url now) docs).2.2,
         location := some "nested_unit", collection := some sn },
       storeSet store sn (updateOneDocs (nestedIdPred sid) (nestedIdSet sid url now) docs).1,
       [⟨sn, "nested_unit", 1⟩]) := by
  have hm : (updateOneDocs (nestedIdPred sid) (nestedIdSet sid url now) docs).2.1 = 1 := by
    rw [updateOneDocs_matched]
    simp [hnested]
  have htc : tryCollectionTr sn docs sid url now =
      (some ({ ok := true,
               updated := (updateOneDocs (nestedIdPred sid) (nestedIdSet sid url now) docs).2.2,
               location := some "nested_unit", collection := some sn },
             (updateOneDocs (nestedIdPred sid) (nestedIdSet sid url now) docs).1),
       [⟨sn, "nested_unit", 1⟩]) := by
    simp [tryCollectionTr, hm]
  simp [updateSubtopicVideoDirect, hlook, htc]

/-- With an identifier that does not parse as an ObjectId and no nested
match anywhere, the loop still visits EVERY collection (one nested attempt
each, the main-document strategy silently skipped), leaves the store
untouched, and ends in the 404 response — the parse failure is never
fatal. -/
theorem searchLoop_invalid_oid (sid url : String) (now : Nat)
    (hoid : isValidOid sid = false) :
    ∀ colls : List (String × List MDoc),
      (∀ c ∈ colls, c.2.any (nestedIdPred sid) = false) →
      searchLoop sid url now colls =
        (notFoundResp, colls, colls.map fun c => ⟨c.1, "nested_unit", 0⟩) := by
  intro colls
  induction colls with
  | nil => intro _; rfl
  | cons c rest ih =>
    intro hmiss
    obtain ⟨name, docs⟩ := c
    have hdocs : docs.any (nestedIdPred sid) = false := hmiss (name, docs) (List.mem_cons_self _ _)
    have hm : (updateOneDocs (nestedIdPred sid) (nestedIdSet sid url now) docs).2.1 = 0 := by
      rw [updateOneDocs_matched, hdocs]
      rfl
    have htc : tryCollectionTr name docs sid url now = (none, [⟨name, "nested_unit", 0⟩]) := by
      simp [tryCollectionTr, hm, hoid]
    have ih2 := ih (fun c hc => hmiss c (List.mem_cons_of_mem _ hc))
    simp [searchLoop, htc, ih2]

/-- The `part_000` variant with an identifier that does not parse: ATTEMPT 1
is skipped, and a nested string-`_id` match is still found and updated by
ATTEMPT 2. -/
theorem updateSubtopicVideoP0_invalid_oid_nested (docs : List MDoc) (sid url : String)
    (now : Nat) (hoid : isValidOid sid = false)
    (hnested : docs.any (nestedUidStrPred sid) = true) :
    (updateSubtopicVideoP0 docs sid url now).1.ok = true ∧
      (updateSubtopicVideoP0 docs sid url now).1.location = "nested_unit_string" := by
  have hm : (updateOneDocs (nestedUidStrPred sid) (nestedUidStrSet sid url now) docs).2.1 = 1 := by
    rw [updateOneDocs_matched, hnested]
    rfl
  simp [updateSubtopicVideoP0, hoid, p0Attempt2, hm]

/-- When no strategy of the `part_000` variant matches the identifier, the
response is the 404 and the collection is unchanged. -/
theorem updateSubtopicVideoP0_nomatch (docs : List MDoc) (sid url : String) (now : Nat)
    (hmain : docs.any (mainDocPred sid) = false)
    (hns : docs.any (nestedUidStrPred sid) = false)
    (hno : docs.any (nestedUidOidPred sid) = false) :
    updateSubtopicVideoP0 docs sid url now = (notFoundP0, docs) := by
  have hm1 : (updateOneDocs (mainDocPred sid) (mainDocSet url now) docs).2.1 = 0 := by
    rw [updateOneDocs_matched, hmain]; rfl
  have hd1 : (updateOneDocs (mainDocPred sid) (mainDocSet url now) docs).1 = docs :=
    updateOneDocs_unmatched _ _ docs hmain
  have hm2 : (updateOneDocs (nestedUidStrPred sid) (nestedUidStrSet sid url now) docs).2.1 = 0 := by
    rw [updateOneDocs_matched, hns]; rfl
  have hd2 : (updateOneDocs (nestedUidStrPred sid) (nestedUidStrSet sid url now) docs).1 = docs :=
    updateOneDocs_unmatched _ _ docs hns
  have hm3 : (updateOneDocs (nestedUidOidPred sid) (nestedUidOidSet sid url now) docs).2.1 = 0 := by
    rw [updateOneDocs_matched, hno]; rfl
  have hd3 : (updateOneDocs (nestedUidOidPred sid) (nestedUidOidSet sid url now) docs).1 = docs :=
    updateOneDocs_unmatched _ _ docs hno
  by_cases hoid : isValidOid sid
  · simp [updateSubtopicVideoP0, hoid, hm1, hd1, p0Attempt2, hm2, hd2, p0Attempt3, hm3, hd3]
  · simp [updateSubtopicVideoP0, hoid, p0Attempt2, hm2, hd2, p0Attempt3, hm3, hd3]

/-- C1 (amended).  In `src/server.js`'s `PUT /api/updateSubtopicVideo`,
within the searched collection the nested-string strategy (`"units.id"`)
is tried before the main-document native-id strategy, so a record
reachable by both resolves as `nested_unit`; and for every run, once any
strategy matches, no further strategy and no further collection is
attempted (every attempt except possibly the last matched nothing), so at
most one write is committed. -/
theorem claim_C1_nested_priority (store : List (String × List MDoc)) (sn : String)
    (docs : List MDoc) (sid url : String) (now : Nat)
    (hlook : store.lookup sn = some docs)
    (_hvalid : isValidOid sid = true)
    (hnested : docs.any (nestedIdPred sid) = true)
    (_hmain : docs.any (mainDocPred sid) = true) :
    ((updateSubtopicVideoDirect store (some sn) sid url now).1.ok = true
      ∧ (updateSubtopicVideoDirect store (some sn) sid url now).1.location = some "nested_unit"
      ∧ (updateSubtopicVideoDirect store (some sn) sid url now).1.collection = some sn)
    ∧ stopAtFirstMatch (updateSubtopicVideoDirect store (some sn) sid url now).2.2
    ∧ attemptsMatched (updateSubtopicVideoDirect store (some sn) sid url now).2.2 ≤ 1 := by
  have heval := updateSubtopicVideoDirect_subject_nested store sn docs sid url now hlook hnested
  refine ⟨⟨?_, ?_, ?_⟩, ?_, ?_⟩
  · rw [heval]
  · rw [heval]
  · rw [heval]
  · exact (updateSubtopicVideoDirect_good store (some sn) sid url now).1
  · exact (updateSubtopicVideoDirect_good store (some sn) sid url now).2

/-- C1 witness: a record reachable both as a nested `"units.id"` string
and as a top-level native id resolves as `nested_unit` with exactly one
committed write. -/
theorem claim_C1_witness :
    (updateSubtopicVideoDirect c1wStore (some "physics") exOid exUrl 7).1.location =
      some "nested_unit"
    ∧ attemptsMatched (updateSubtopicVideoDirect c1wStore (some "physics") exOid exUrl 7).2.2 = 1 :=
  ⟨(claim_C1_nested_priority c1wStore "physics" [c1wParent, c1Main] exOid exUrl 7
      (by rfl) (by decide) (by decide) (by decide)).1.2.1,
   by decide⟩

/-- C1 counterexample: in the `src/unnamed/part_000` variant the record of
`c1Docs` is reachable both by the nested-string strategy and by the
main-document native-id strategy, yet resolution commits the MAIN-DOCUMENT
update (ATTEMPT 1 runs first), not the nested-string one — the claim's
"nested-string strategy always wins" fails on this variant. -/
theorem claim_C1_counterexample :
    c1Docs.any (nestedUidStrPred exOid) = true
    ∧ c1Docs.any (mainDocPred exOid) = true
    ∧ (updateSubtopicVideoP0 c1Docs exOid exUrl 5).1.location = "main_document"
    ∧ (updateSubtopicVideoP0 c1Docs exOid exUrl 5).1.location ≠ "nested_unit_string" := by
  refine ⟨by decide, by decide, by decide, by decide⟩

/-- C2 (amended).  The bounded poll loop of `src/server.js`: when no poll
ever answers a terminal status, `awaitCompletion` terminates once the
budget is exhausted and reports the timeout outcome — no result URL.
(The legacy unbounded variant refutes the claim as stated; see the
counterexample.) -/
theorem claim_C2_timeout (provider : Nat → PollResp) (pollInterval maxWait : Nat)
    (hpi : 1 ≤ pollInterval)
    (hnt : ∀ i, (provider i).status ≠ "done" ∧ (provider i).status ≠ "failed") :
    ∃ n, awaitCompletion provider pollInterval maxWait = some (JobOutcome.timeout, n) := by
  unfold awaitCompletion
  exact pollLoopFuel_timeout provider pollInterval maxWait hpi hnt (maxWait + 1) 0 0 (by omega)

/-- Every poll of the always-`inProgress` provider is non-terminal. -/
theorem constInProgress_nonterminal (i : Nat) :
    (constInProgress i).status ≠ "done" ∧ (constInProgress i).status ≠ "failed" := by
  constructor
  · show ("inProgress" : String) ≠ "done"
    decide
  · show ("inProgress" : String) ≠ "failed"
    decide

/-- The always-`failed` provider never answers `done`. -/
theorem constFailed_not_done (i : Nat) : (constFailed i).status ≠ "done" := by
  show ("failed" : String) ≠ "done"
  decide

/-- C2 witness: the always-`inProgress` provider times out under the
code's real budget, and concretely performs 3 polls under a 3-tick
budget with unit interval. -/
theorem claim_C2_witness :
    (∃ n, awaitCompletion constInProgress pollIntervalMs maxWaitTimeMs =
      some (JobOutcome.timeout, n))
    ∧ awaitCompletion constInProgress 1 3 = some (JobOutcome.timeout, 3) :=
  ⟨claim_C2_timeout constInProgress pollIntervalMs maxWaitTimeMs (by decide)
    constInProgress_nonterminal, by decide⟩

/-- C2 counterexample: the unbounded legacy poll loop
(`src/unnamed/part_000` lines 72-83) has no budget: on the
always-`inProgress` provider it is still polling after any number of
steps — the poll loop DOES run forever, refuting the claim as stated for
that cited variant. -/
theorem claim_C2_counterexample :
    unboundedRunsForever constInProgress ∧ pollLoopUnbounded constInProgress 50 0 = none :=
  ⟨pollLoopUnbounded_never constInProgress (fun i => (constInProgress_nonterminal i).1),
   by decide⟩

/-- C3 (amended).  With a nested `"units.id"` match in the subject
collection, `attachVideo` succeeds both times with `matched: true`
(status ok, `location: "nested_unit"`); the first call's `modifiedCount`
is 1 exactly when the write changed the stored document, and the repeated
identical call's `modifiedCount` is 0 only when its refreshed
`units.$.updatedAt` timestamp equals the first call's — at any later
timestamp it is 1.  A matched-but-unmodified outcome is still the ok
response, never an error. -/
theorem claim_C3_repeat (store store1 : List (String × List MDoc)) (sn : String)
    (docs : List MDoc) (sid url : String) (t0 t1 : Nat)
    (hlook : store.lookup sn = some docs)
    (hnested : docs.any (nestedIdPred sid) = true)
    (hstore1 : store1 = (updateSubtopicVideoDirect store (some sn) sid url t0).2.1) :
    (updateSubtopicVideoDirect store (some sn) sid url t0).1.ok = true
    ∧ (updateSubtopicVideoDirect store (some sn) sid url t0).1.location = some "nested_unit"
    ∧ ((updateSubtopicVideoDirect store (some sn) sid url t0).1.updated =
        if (updateOneDocs (nestedIdPred sid) (nestedIdSet sid url t0) docs).1 = docs
        then 0 else 1)
    ∧ (updateSubtopicVideoDirect store1 (some sn) sid url t1).1.ok = true
    ∧ (updateSubtopicVideoDirect store1 (some sn) sid url t1).1.location = some "nested_unit"
    ∧ ((updateSubtopicVideoDirect store1 (some sn) sid url t1).1.updated =
        if t1 = t0 then 0 else 1) := by
  have heval1 := updateSubtopicVideoDirect_subject_nested store sn docs sid url t0 hlook hnested
  have hst : store1 =
      storeSet store sn (updateOneDocs (nestedIdPred sid) (nestedIdSet sid url t0) docs).1 := by
    rw [hstore1, heval1]
  have hsome : (store.lookup sn).isSome = true := by rw [hlook]; rfl
  have hlook1 : store1.lookup sn =
      some (updateOneDocs (nestedIdPred sid) (nestedIdSet sid url t0) docs).1 := by
    rw [hst]
    exact lookup_storeSet sn _ store hsome
  have hany1 : ((updateOneDocs (nestedIdPred sid) (nestedIdSet sid url t0) docs).1).any
      (nestedIdPred sid) = true := by
    rw [updateOneDocs_any _ _ (fun d => nestedIdPred_nestedIdSet sid url t0 d)]
    exact hnested
  have heval2 := updateSubtopicVideoDirect_subject_nested store1 sn
    ((updateOneDocs (nestedIdPred sid) (nestedIdSet sid url t0) docs).1) sid url t1 hlook1 hany1
  refine ⟨?_, ?_, ?_, ?_, ?_, ?_⟩
  · rw [heval1]
  · rw [heval1]
  · rw [heval1]
    exact updateOneDocs_modified _ _ docs
  · rw [heval2]
  · rw [heval2]
  · rw [heval2]
    exact updateOneDocs_second_update sid url t0 t1 docs hnested

/-- C3 witness: the `"sub-42"` scenario — an identical repeat at the SAME
timestamp matches and modifies nothing, reported as success. -/
theorem claim_C3_witness :
    (updateSubtopicVideoDirect c3Store1 (some "physics") "sub-42" exUrl 5).1.updated = 0
    ∧ (updateSubtopicVideoDirect c3Store1 (some "physics") "sub-42" exUrl 5).1.ok = true := by
  have h := claim_C3_repeat c3Store c3Store1 "physics" [c3Parent] "sub-42" exUrl 5 5
    (by rfl) (by decide) (by rfl)
  exact ⟨by simpa using h.2.2.2.2.2, h.2.2.2.1⟩

/-- C3 counterexample: the immediately repeated identical call at the next
millisecond reports `modifiedCount` 1, not 0, because the update always
rewrites `units.$.updatedAt` — the claim's unconditional
`modifiedCount: 0` on the second call is false on the code. -/
theorem claim_C3_counterexample :
    (updateSubtopicVideoDirect c3Store (some "physics") "sub-42" exUrl 5).1.updated = 1
    ∧ (updateSubtopicVideoDirect c3Store1 (some "physics") "sub-42" exUrl 6).1.updated = 1
    ∧ (updateSubtopicVideoDirect c3Store1 (some "physics") "sub-42" exUrl 6).1.ok = true := by
  refine ⟨by decide, by decide, by decide⟩

/-- C4 (amended).  The `src/server.js` handler rejects with the 400
validation response and issues NO provider job-creation call whenever the
input is invalid (missing/empty subtopic or description, or trimmed
description shorter than 3), and for every valid submission it issues
exactly one job-creation call, whatever the poll outcome — never an
automatic resubmission.  (The `part_003` variant refutes the no-call
part; see the counterexample.) -/
theorem claim_C4_validation (subtopic description : Option String)
    (provider : Nat → PollResp) :
    (validGenInput subtopic description = false →
      generateAndUpload subtopic description provider = (GenResult.badRequest, 0))
    ∧ (validGenInput subtopic description = true →
      (generateAndUpload subtopic description provider).2 = 1) := by
  constructor
  · intro h
    simp [generateAndUpload, h]
  · intro h
    rcases hres : awaitCompletion provider pollIntervalMs maxWaitTimeMs with _ | ⟨o, n⟩
    · simp [generateAndUpload, h, hres]
    · cases o <;> simp [generateAndUpload, h, hres]

/-- C4 witness: a missing description is rejected with no provider call; a
valid submission issues exactly one job-creation call. -/
theorem claim_C4_witness :
    generateAndUpload (some "Kinematics") none (fun _ => ⟨"done", exUrl⟩) =
      (GenResult.badRequest, 0)
    ∧ (generateAndUpload (some "Kinematics") (some "A body moving under gravity")
        (fun _ => ⟨"done", exUrl⟩)).2 = 1 :=
  ⟨(claim_C4_validation (some "Kinematics") none (fun _ => ⟨"done", exUrl⟩)).1 (by decide),
   (claim_C4_validation (some "Kinematics") (some "A body moving under gravity")
      (fun _ => ⟨"done", exUrl⟩)).2 (by decide)⟩

/-- C4 counterexample: the `src/unnamed/part_003` handler performs no
validation — with the description entirely missing it still issues the
one provider job-creation call and answers success, not a 400. -/
theorem claim_C4_counterexample :
    generateAndUploadP3 (some "Kinematics") none (fun _ => ⟨"done", exUrl⟩) =
      (GenResult.success exUrl, 1)
    ∧ (generateAndUploadP3 (some "Kinematics") none (fun _ => ⟨"done", exUrl⟩)).1 ≠
        GenResult.badRequest := by
  refine ⟨by decide, by decide⟩

/-- C5 (amended).  In the bounded `src/server.js` loop, when the first
terminal poll answers `failed` within the budget, `awaitCompletion` stops
right there — exactly `j + 1` polls, no further poll, no resubmission —
with the provider-error outcome (`"D-ID video generation failed"`).
(The `part_001` unbounded variant has no `failed` branch and refutes the
claim as stated; see the counterexample.) -/
theorem claim_C5_failed_stops (provider : Nat → PollResp) (pollInterval maxWait j : Nat)
    (hpi : 1 ≤ pollInterval)
    (hnt : ∀ i, i < j → (provider i).status ≠ "done" ∧ (provider i).status ≠ "failed")
    (hfail : (provider j).status = "failed") (hj : j * pollInterval < maxWait) :
    awaitCompletion provider pollInterval maxWait = some (JobOutcome.providerError, j + 1) :=
  awaitCompletion_first_failed provider pollInterval maxWait j hpi hnt hfail hj

/-- C5 witness: a `failed` on the second poll stops the loop after exactly
two polls with the provider-error outcome, under the code's real interval
and budget. -/
theorem claim_C5_witness :
    awaitCompletion exProviderFail2 pollIntervalMs maxWaitTimeMs =
      some (JobOutcome.providerError, 1 + 1)
    ∧ awaitCompletion constFailed 1 3 = some (JobOutcome.providerError, 1) :=
  ⟨claim_C5_failed_stops exProviderFail2 pollIntervalMs maxWaitTimeMs 1 (by decide)
      (by decide) (by decide) (by decide),
   by decide⟩

/-- C5 counterexample: the `src/unnamed/part_001` poll loop has no
`failed` branch — on the always-`failed` provider it does NOT stop and
raise a provider error; it is still polling after any number of steps. -/
theorem claim_C5_counterexample :
    unboundedRunsForever constFailed ∧ pollLoopUnbounded constFailed 50 0 = none :=
  ⟨pollLoopUnbounded_never constFailed constFailed_not_done, by decide⟩

/-- C6 (confirmed).  When the first terminal poll is the `j`-th and
answers `done` within the budget, `awaitCompletion` succeeds with the
provider's result URL carried through unmodified, after exactly `j + 1`
status polls (3 polls for `inProgress, inProgress, done`). -/
theorem claim_C6_done_url (provider : Nat → PollResp) (pollInterval maxWait j : Nat)
    (hpi : 1 ≤ pollInterval)
    (hnt : ∀ i, i < j → (provider i).status ≠ "done" ∧ (provider i).status ≠ "failed")
    (hdone : (provider j).status = "done") (hj : j * pollInterval < maxWait) :
    awaitCompletion provider pollInterval maxWait =
      some (JobOutcome.success (provider j).result_url, j + 1) :=
  awaitCompletion_first_done provider pollInterval maxWait j hpi hnt hdone hj

/-- C6 witness: the spec's scenario — `inProgress, inProgress, done` with
`resultUrl "https://cdn/video1.mp4"` returns that URL after exactly 3
polls under the code's real interval and budget. -/
theorem claim_C6_witness :
    awaitCompletion exProvider3 pollIntervalMs maxWaitTimeMs =
      some (JobOutcome.success exUrl, 3)
    ∧ awaitCompletion exProvider3 1 10 = some (JobOutcome.success exUrl, 3) := by
  constructor
  · have h := claim_C6_done_url exProvider3 pollIntervalMs maxWaitTimeMs 2 (by decide)
      (by decide) (by decide) (by decide)
    simpa using h
  · decide

/-- C7 (confirmed).  An identifier that does not parse as a native
ObjectId is never fatal.  In `src/server.js`, with no nested match in the
store, the search still visits EVERY collection (one nested attempt per
collection, the main-document strategy silently skipped by the
`try/catch`), leaves the store untouched and ends in the ordinary 404 —
no exception response.  In the `part_000` variant, ATTEMPT 1's parse
failure is swallowed and the nested string strategy still finds and
updates the record. -/
theorem claim_C7_parse_failure_skipped (store : List (String × List MDoc))
    (docs : List MDoc) (sid url : String) (now : Nat)
    (hoid : isValidOid sid = false)
    (hmiss : ∀ c ∈ store, c.2.any (nestedIdPred sid) = false)
    (hnested : docs.any (nestedUidStrPred sid) = true) :
    (updateSubtopicVideoDirect store none sid url now =
      (notFoundResp, store, store.map fun c => ⟨c.1, "nested_unit", 0⟩))
    ∧ (updateSubtopicVideoP0 docs sid url now).1.ok = true
    ∧ (updateSubtopicVideoP0 docs sid url now).1.location = "nested_unit_string" := by
  refine ⟨?_, ?_, ?_⟩
  · show searchLoop sid url now store = _
    exact searchLoop_invalid_oid sid url now hoid store hmiss
  · exact (updateSubtopicVideoP0_invalid_oid_nested docs sid url now hoid hnested).1
  · exact (updateSubtopicVideoP0_invalid_oid_nested docs sid url now hoid hnested).2

/-- C7 witness: `"sub-42"` does not parse as an ObjectId; the server.js
search still walks both collections and answers 404, and the part_000
variant still resolves the record via the nested string strategy. -/
theorem claim_C7_witness :
    (updateSubtopicVideoDirect c7Store none "sub-42" exUrl 3).1 = notFoundResp
    ∧ (updateSubtopicVideoP0 c7Docs "sub-42" exUrl 3).1.location = "nested_unit_string" := by
  have h := claim_C7_parse_failure_skipped c7Store c7Docs "sub-42" exUrl 3
    (by decide) (by decide) (by decide)
  exact ⟨by rw [h.1], h.2.2⟩

/-- One unfolding step of the fueled bounded loop. -/
theorem pollLoopFuel_succ (provider : Nat → PollResp) (pollInterval maxWait fuel k elapsed : Nat) :
    pollLoopFuel provider pollInterval maxWait (fuel + 1) k elapsed =
      if maxWait ≤ elapsed then some (JobOutcome.timeout, k)
      else if (provider k).status = "done" then
        some (JobOutcome.success (provider k).result_url, k + 1)
      else if (provider k).status = "failed" then
        some (JobOutcome.providerError, k + 1)
      else pollLoopFuel provider pollInterval maxWait fuel (k + 1) (elapsed + pollInterval) := by
  rw [pollLoopFuel]

/-- C8 (amended).  With a positive budget (the code's is 600000 ms) the
guard passes before the first poll, so at least one status poll is always
performed; the guard sits BEFORE the first poll, so with a zero budget no
poll happens (see the counterexample). -/
theorem claim_C8_at_least_one_poll (provider : Nat → PollResp) (pollInterval maxWait : Nat)
    (hpi : 1 ≤ pollInterval) (hmw : 0 < maxWait) :
    ∃ o n, awaitCompletion provider pollInterval maxWait = some (o, n) ∧ 1 ≤ n := by
  unfold awaitCompletion
  rw [pollLoopFuel_succ]
  have hguard : ¬ maxWait ≤ 0 := by omega
  simp only [if_neg hguard]
  by_cases hdone : (provider 0).status = "done"
  · simp only [if_pos hdone]
    exact ⟨JobOutcome.success (provider 0).result_url, 1, rfl, Nat.le_refl 1⟩
  · by_cases hfail : (provider 0).status = "failed"
    · simp only [if_neg hdone, if_pos hfail]
      exact ⟨JobOutcome.providerError, 1, rfl, Nat.le_refl 1⟩
    · simp only [if_neg hdone, if_neg hfail]
      obtain ⟨o, n, heq, hn⟩ := pollLoopFuel_total provider pollInterval maxWait hpi
        maxWait 1 (0 + pollInterval) (by omega)
      exact ⟨o, n, heq, hn⟩

/-- C8 witness: under the code's real interval and budget at least one
poll happens; with a tiny positive budget the loop concretely polls
twice before timing out. -/
theorem claim_C8_witness :
    (∃ o n, awaitCompletion constInProgress pollIntervalMs maxWaitTimeMs = some (o, n) ∧ 1 ≤ n)
    ∧ awaitCompletion constInProgress 1 2 = some (JobOutcome.timeout, 2) :=
  ⟨claim_C8_at_least_one_poll constInProgress pollIntervalMs maxWaitTimeMs
      (by decide) (by decide),
   by decide⟩

/-- C8 counterexample: with a zero `maxWait` budget the elapsed-time guard
fails before the first poll — ZERO status polls are performed before the
timeout conclusion, refuting "at least one status check" as stated. -/
theorem claim_C8_counterexample :
    awaitCompletion constInProgress pollIntervalMs 0 = some (JobOutcome.timeout, 0) := by
  decide

/-- C9 (confirmed).  `POST /api/addSubtopic`: a falsy `unitName` is a 400
with nothing stored; with a truthy, parseable `parentId` matching a stored
parent, the record is appended as one nested `units` element of that
parent (document count unchanged, total unit count up by one) and an
identifier is returned; with no `parentId` (and no caller-chosen id) a new
top-level document carrying the payload's `unitName` is inserted and its
identifier returned. -/
theorem claim_C9_createRecord (docs : List MDoc) (payload : AddPayload) (now ctr : Nat) :
    (truthy payload.unitName = false →
      addSubtopic docs payload now ctr =
        ({ status := 400, insertedId := none, insertedSubId := none, parentUpdated := none },
          docs, ctr))
    ∧ (∀ p : String, truthy payload.unitName = true → payload.parentId = some p →
        truthy (some p) = true → isValidOid p = true → docs.any (mainDocPred p) = true →
        (addSubtopic docs payload now ctr).1.status = 200
        ∧ (addSubtopic docs payload now ctr).1.insertedSubId.isSome = true
        ∧ (addSubtopic docs payload now ctr).2.1.length = docs.length
        ∧ totalUnits (addSubtopic docs payload now ctr).2.1 = totalUnits docs + 1)
    ∧ (truthy payload.unitName = true → truthy payload.parentId = false →
        truthy payload.subtopicId = false →
        (addSubtopic docs payload now ctr).1.status = 200
        ∧ (addSubtopic docs payload now ctr).1.insertedSubId.isSome = true
        ∧ ∃ d : MDoc, (addSubtopic docs payload now ctr).2.1 = docs ++ [d]
            ∧ d.unitName = payload.unitName ∧ d.units = []) := by
  refine ⟨?_, ?_, ?_⟩
  · intro h
    simp [addSubtopic, h]
  · intro p hu hp htr hvalid hany
    have h1 : truthy payload.parentId = true := by rw [hp]; exact htr
    refine ⟨?_, ?_, ?_, ?_⟩
    · simp [addSubtopic, hu, h1, hp, htr, hvalid]
    · simp [addSubtopic, hu, h1, hp, htr, hvalid]
    · simp [addSubtopic, hu, h1, hp, htr, hvalid, updateOneDocs_length]
    · simp [addSubtopic, hu, h1, hp, htr, hvalid]
      exact updateOneDocs_totalUnits _ _ (fun d _ => by simp) docs hany
  · intro hu hpar hsub
    refine ⟨?_, ?_, ?_⟩
    · simp [addSubtopic, hu, hpar, hsub]
    · simp [addSubtopic, hu, hpar, hsub]
    · refine ⟨insertedDoc payload (BVal.oid (freshOid ctr)) now, ?_, rfl, rfl⟩
      simp [addSubtopic, hu, hpar, hsub]

/-- C9 witness: against a store holding parent `exOid` — the 400 on a
missing `unitName`, the nested append under the existing parent (one more
unit, no new document), and the top-level insertion with no parent. -/
theorem claim_C9_witness :
    (addSubtopic c9Docs c9PayloadBad 3 0).1.status = 400
    ∧ totalUnits (addSubtopic c9Docs c9PayloadNested 3 0).2.1 = totalUnits c9Docs + 1
    ∧ (addSubtopic c9Docs c9PayloadNested 3 0).2.1.length = c9Docs.length
    ∧ (addSubtopic c9Docs c9PayloadTop 3 0).2.1.length = c9Docs.length + 1 := by
  have hnest := (claim_C9_createRecord c9Docs c9PayloadNested 3 0).2.1 exOid
    (by decide) (by rfl) (by decide) (by decide) (by decide)
  have hbad := (claim_C9_createRecord c9Docs c9PayloadBad 3 0).1 (by decide)
  have htop := (claim_C9_createRecord c9Docs c9PayloadTop 3 0).2.2
    (by decide) (by decide) (by decide)
  refine ⟨by rw [hbad], hnest.2.2.2, hnest.2.2.1, ?_⟩
  obtain ⟨d, hd, _, _⟩ := htop.2.2
  rw [hd]
  simp

/-- C10 (confirmed).  When `addSubtopic` is given a parseable `parentId`
matching NO stored document, the `$push` matches zero parents, yet the
endpoint still answers `status: "ok"` with a fresh `insertedSubId` and
`parentUpdated: false`; the store is completely unchanged, so any
identifier absent from the store — in particular the fresh one just
returned — is unfindable by a subsequent `updateSubtopicVideo` call of
the same variant, which answers its 404. -/
theorem claim_C10_orphan_ok (docs : List MDoc) (payload : AddPayload)
    (now ctr : Nat) (p : String)
    (hu : truthy payload.unitName = true)
    (hp : payload.parentId = some p) (htr : truthy (some p) = true)
    (hvalid : isValidOid p = true)
    (hnone : docs.any (mainDocPred p) = false) :
    (addSubtopic docs payload now ctr).1.status = 200
    ∧ (addSubtopic docs payload now ctr).1.parentUpdated = some false
    ∧ (addSubtopic docs payload now ctr).1.insertedSubId.isSome = true
    ∧ (addSubtopic docs payload now ctr).2.1 = docs
    ∧ (∀ rid url : String, ∀ t : Nat, docs.any (mainDocPred rid) = false →
        docs.any (nestedUidStrPred rid) = false →
        docs.any (nestedUidOidPred rid) = false →
        updateSubtopicVideoP0 docs rid url t = (notFoundP0, docs)) := by
  have h1 : truthy payload.parentId = true := by rw [hp]; exact htr
  have hmod : (updateOneDocs (mainDocPred p)
      (fun d => { d with units := d.units ++
        [pushedUnit payload (if truthy payload.subtopicId = true then
          payload.subtopicId.getD "" else freshOid (ctr + 1)) now] }) docs).2.2 = 0 :=
    updateOneDocs_unmodified _ _ docs hnone
  have hun : (updateOneDocs (mainDocPred p)
      (fun d => { d with units := d.units ++
        [pushedUnit payload (if truthy payload.subtopicId = true then
          payload.subtopicId.getD "" else freshOid (ctr + 1)) now] }) docs).1 = docs :=
    updateOneDocs_unmatched _ _ docs hnone
  refine ⟨?_, ?_, ?_, ?_, ?_⟩
  · simp [addSubtopic, hu, h1, hp, htr, hvalid]
  · simp [addSubtopic, hu, h1, hp, htr, hvalid, hmod]
  · simp [addSubtopic, hu, h1, hp, htr, hvalid]
  · simp [addSubtopic, hu, h1, hp, htr, hvalid, hun]
  · intro rid url t ha hb hc
    exact updateSubtopicVideoP0_nomatch docs rid url t ha hb hc

/-- C10 witness: parent `exOid2` exists nowhere in the store; the call
answers ok with the fresh identifier `generated-3`, stores nothing, and
that identifier is subsequently unfindable (404). -/
theorem claim_C10_witness :
    (addSubtopic c9Docs c10Payload 3 0).1.status = 200
    ∧ (addSubtopic c9Docs c10Payload 3 0).1.parentUpdated = some false
    ∧ (addSubtopic c9Docs c10Payload 3 0).1.insertedSubId = some "generated-3"
    ∧ (addSubtopic c9Docs c10Payload 3 0).2.1 = c9Docs
    ∧ updateSubtopicVideoP0 c9Docs "generated-3" exUrl 9 = (notFoundP0, c9Docs) := by
  have h := claim_C10_orphan_ok c9Docs c10Payload 3 0 exOid2
    (by decide) (by rfl) (by decide) (by decide) (by decide)
  exact ⟨h.1, h.2.1, by decide, h.2.2.2.1,
    h.2.2.2.2 "generated-3" exUrl 9 (by decide) (by decide) (by decide)⟩
